import Mathlib

/-!
Shallow embedding of the search-and-filter core of the Movie-Extractor
repository (`src/MovieExtractor2.py`, class `AdvancedMediaSearch` and the
pagination logic of `MediaSearchCLI.display_results`).

Network effects are made explicit: every upstream HTTP call is recorded as an
`UpstreamRequest` value, and the response is supplied by an oracle function
(`Net`).  Python dictionaries with string keys become association lists,
Python `None`-able values become `Option`, and a Python function that can
raise becomes `Except String`.
-/

/-- Python truthiness of an optional string (`None` and `""` are falsy). -/
def truthyStr : Option String → Bool
  | none => false
  | some s => !(s == "")

/-- Python truthiness of an optional integer (`None` and `0` are falsy). -/
def truthyInt : Option Int → Bool
  | none => false
  | some n => !(n == 0)

/-- Python `str.lower()` (ASCII case folding, field-faithful for genre names). -/
def pyLower (s : String) : String := String.mk (s.data.map Char.toLower)

/-- Python `str.upper()`, used on the pagination navigation input. -/
def pyUpper (s : String) : String := String.mk (s.data.map Char.toUpper)

/-- The leading segment of `s.split(sep)` for a one-character separator:
`s.split(c)[0]` is everything before the first occurrence of `c`. -/
def leadSegment (s : String) : String :=
  String.mk (s.data.takeWhile (fun c => c ≠ Char.ofNat 45))

/-- Digit-string value, `none` unless the list is nonempty and all digits. -/
def parseDigits (cs : List Char) : Option Nat :=
  if cs ≠ [] ∧ cs.all Char.isDigit then
    some (cs.foldl (fun a c => a * 10 + (c.toNat - 48)) 0)
  else none

/-- Python `int(s)` on strings: strips surrounding whitespace, accepts an
optional single sign followed by digits, and raises (here: `none`) on
anything else. -/
def pyInt (s : String) : Option Int :=
  let cs := ((s.data.dropWhile Char.isWhitespace).reverse.dropWhile
      Char.isWhitespace).reverse
  match cs with
  | [] => none
  | c :: rest =>
    if c = Char.ofNat 45 then (parseDigits rest).map (fun n => -(n : Int))
    else if c = Char.ofNat 43 then (parseDigits rest).map (fun n => (n : Int))
    else (parseDigits cs).map (fun n => (n : Int))

/-- A raw upstream result record.  Fields are optional because movie and TV
records use different field names and any field may be missing. -/
structure RawItem where
  title : Option String := none
  name : Option String := none
  release_date : Option String := none
  first_air_date : Option String := none
  overview : Option String := none
  popularity : Option Int := none
deriving DecidableEq, Repr

/-- One normalized output row of `convert_results_to_dataframe`. -/
structure Row where
  title : String
  release_year : Option Int
  overview : String
  popularity : Int
deriving DecidableEq, Repr

/-- The local `release_date` of `convert_results_to_dataframe`:
`item.get('release_date') or item.get('first_air_date')`. -/
def item_date (item : RawItem) : Option String :=
  if truthyStr item.release_date then item.release_date else item.first_air_date

/-- `int(release_date.split('-')[0]) if release_date else None`: `None` or an
empty string yields no year; otherwise the leading segment is parsed with
`int`, which raises `ValueError` when it does not parse. -/
def parse_year (rd : Option String) : Except String (Option Int) :=
  match rd with
  | none => Except.ok none
  | some d =>
    if d = "" then Except.ok none
    else
      match pyInt (leadSegment d) with
      | some y => Except.ok (some y)
      | none => Except.error "ValueError"

/-- The per-item body of `convert_results_to_dataframe`. -/
def normalizeItem (item : RawItem) : Except String Row :=
  (parse_year (item_date item)).map fun ry =>
    { title := item.title.getD (item.name.getD "N/A"),
      release_year := ry,
      overview := item.overview.getD "No overview",
      popularity := item.popularity.getD 0 }

/-- `AdvancedMediaSearch.convert_results_to_dataframe`: the loop appends one
row per item in order; an exception raised mid-loop propagates out. -/
def convert_results_to_dataframe : List RawItem → Except String (List Row)
  | [] => Except.ok []
  | item :: rest => do
    let row ← normalizeItem item
    let rows ← convert_results_to_dataframe rest
    Except.ok (row :: rows)

/-- An item is parse-safe when its effective date field is absent, empty, or
has an `int`-parsable leading segment. -/
def item_parses (item : RawItem) : Bool :=
  match item_date item with
  | none => true
  | some d => d == "" || (pyInt (leadSegment d)).isSome

/-- A request-parameter value, mirroring the mixed str/int values of the
Python params dictionaries. -/
inductive PValue where
  | s : String → PValue
  | i : Int → PValue
deriving DecidableEq, Repr

/-- One upstream HTTP GET: URL plus params in dictionary insertion order. -/
structure UpstreamRequest where
  url : String
  params : List (String × PValue)
deriving DecidableEq, Repr

/-- Oracle for the network: a request either returns the extracted `results`
list of the JSON payload, or raises (any exception the `try` blocks catch). -/
abbrev Net : Type := UpstreamRequest → Except String (List RawItem)

/-- A genre dictionary: lowercased genre name to TMDB id, insertion ordered,
keys unique by construction. -/
abbrev GenreMap : Type := List (String × Int)

/-- Python dict insert: overwrite in place when the key exists, append
otherwise. -/
def dictInsert (m : GenreMap) (k : String) (v : Int) : GenreMap :=
  if m.any (fun p => p.1 == k) then
    m.map (fun p => if p.1 == k then (k, v) else p)
  else m ++ [(k, v)]

/-- Python dict lookup (`k in m` / `m[k]`). -/
def dictGet (m : GenreMap) (k : String) : Option Int :=
  (m.find? (fun p => p.1 == k)).map Prod.snd

/-- Lexicographic code-point comparison on character lists, the order Python
`sorted` uses on strings. -/
def charListLe : List Char → List Char → Bool
  | [], _ => true
  | _ :: _, [] => false
  | a :: as, b :: bs =>
    if a.toNat < b.toNat then true
    else if b.toNat < a.toNat then false
    else charListLe as bs

/-- String comparison underlying Python `sorted` on strings. -/
def strLeB (a b : String) : Bool := charListLe a.data b.data

/-- `sorted(genre_map.keys())`. -/
def sortedKeys (m : GenreMap) : List String :=
  List.insertionSort (fun a b => strLeB a b = true) (m.map Prod.fst)

/-- Outcome of the genre-list fetch inside `_get_genre_mappings`: the request
or the JSON decode raised, or a JSON payload whose `genres` key may be
missing (`none`) or hold a list of name/id records. -/
inductive GenreFetchResult where
  | failure : GenreFetchResult
  | payload : Option (List (String × Int)) → GenreFetchResult
deriving DecidableEq, Repr

/-- `AdvancedMediaSearch._get_genre_mappings`: on success builds the
lowercase-name-to-id dictionary from `genre_data.get("genres", [])`; any
exception is caught and yields the empty dictionary. -/
def get_genre_mappings : GenreFetchResult → GenreMap
  | GenreFetchResult.failure => []
  | GenreFetchResult.payload gs =>
    (gs.getD []).foldl (fun m g => dictInsert m (pyLower g.1) g.2) []

/-- The searcher state after `__init__`: the API key and the two preloaded
genre dictionaries. -/
structure AdvancedMediaSearch where
  tmdb_api_key : String
  movie_genres : GenreMap
  tv_genres : GenreMap
deriving DecidableEq

/-- `self.tmdb_base_url`. -/
def tmdb_base_url : String := "https://api.themoviedb.org/3"

/-- Observable behaviour of one fetch helper: the network calls it issued in
order, the genre-not-found feedback it printed (the genre it echoed and the
sorted list of known genre names), and the result list it returned. -/
structure Trace where
  calls : List UpstreamRequest
  genre_not_found : Option (String × List String)
  results : List RawItem
deriving DecidableEq

/-- A `try: requests.get(...) ... except: return []` block: the call is
issued; on an exception the function returns the empty list. -/
def doRequest (net : Net) (req : UpstreamRequest) : Trace :=
  match net req with
  | Except.ok rs => { calls := [req], genre_not_found := none, results := rs }
  | Except.error _ => { calls := [req], genre_not_found := none, results := [] }

/-- `AdvancedMediaSearch._basic_search`. -/
def basic_search (S : AdvancedMediaSearch) (net : Net)
    (query : String) (media_type : String) : Trace :=
  let search_url := tmdb_base_url ++ "/search/" ++ media_type
  let params := [("api_key", PValue.s S.tmdb_api_key),
                 ("query", PValue.s query),
                 ("language", PValue.s "en-US"),
                 ("page", PValue.i 1)]
  doRequest net { url := search_url, params := params }

/-- The year-filter key: `"primary_release_year" if media_type == "movie"
else "first_air_date_year"` (the expression appears verbatim in both
`fetch_by_genre` and `fetch_by_year`). -/
def year_key (media_type : String) : String :=
  if media_type = "movie" then "primary_release_year" else "first_air_date_year"

/-- `AdvancedMediaSearch.fetch_by_genre`. -/
def fetch_by_genre (S : AdvancedMediaSearch) (net : Net) (genre : String)
    (media_type : String) (release_year : Option Int) : Trace :=
  let genre_map := if media_type = "movie" then S.movie_genres else S.tv_genres
  match dictGet genre_map (pyLower genre) with
  | none =>
    { calls := [], genre_not_found := some (genre, sortedKeys genre_map),
      results := [] }
  | some genre_id =>
    let discover_url := tmdb_base_url ++ "/discover/" ++ media_type
    let params := [("api_key", PValue.s S.tmdb_api_key),
                   ("with_genres", PValue.i genre_id),
                   ("language", PValue.s "en-US"),
                   ("page", PValue.i 1)]
    let params :=
      match release_year with
      | some y => if y ≠ 0 then params ++ [(year_key media_type, PValue.i y)]
                  else params
      | none => params
    doRequest net { url := discover_url, params := params }

/-- `AdvancedMediaSearch.fetch_by_year`. -/
def fetch_by_year (S : AdvancedMediaSearch) (net : Net) (year : Int)
    (media_type : String) : Trace :=
  let discover_url := tmdb_base_url ++ "/discover/" ++ media_type
  let params := [("api_key", PValue.s S.tmdb_api_key),
                 ("language", PValue.s "en-US"),
                 ("page", PValue.i 1)]
  let params := params ++ [(year_key media_type, PValue.i year)]
  doRequest net { url := discover_url, params := params }

/-- The `filters` dictionary of `advanced_search`: the two keys it reads. -/
structure Filters where
  genre : Option String := none
  release_year : Option Int := none
deriving DecidableEq, Repr

/-- What one `advanced_search` call produces: the fetch trace plus the
converted dataframe (which can raise, hence `Except`). -/
structure SearchOutput where
  trace : Trace
  df : Except String (List Row)

/-- `AdvancedMediaSearch.advanced_search`: normalizes `filters or {}`, then
takes exactly one branch: truthy genre, else truthy release year, else basic
search; the chosen trace's results are converted to a dataframe. -/
def advanced_search (S : AdvancedMediaSearch) (net : Net)
    (query : String := "") (media_type : String := "movie")
    (filters : Option Filters := none) : SearchOutput :=
  let fs := filters.getD {}
  let genre := fs.genre
  let release_year := fs.release_year
  let t :=
    if truthyStr genre then
      fetch_by_genre S net (genre.getD "") media_type release_year
    else if truthyInt release_year then
      fetch_by_year S net (release_year.getD 0) media_type
    else
      basic_search S net query media_type
  { trace := t, df := convert_results_to_dataframe t.results }

/-- `page_size = 5` in `MediaSearchCLI.display_results`. -/
def page_size : Nat := 5

/-- `total_pages = (total_results + page_size - 1) // page_size`. -/
def total_pages (total_results : Nat) : Nat :=
  (total_results + page_size - 1) / page_size

/-- `page_results = results.iloc[start_idx:end_idx]` with
`start_idx = (current_page - 1) * page_size`. -/
def page_results (results : List Row) (current_page : Nat) : List Row :=
  (results.drop ((current_page - 1) * page_size)).take page_size

/-- One step of the navigation loop of `display_results`: the input is
upper-cased; `N` advances only below the last page, `P` goes back only above
page 1, anything else leaves the page unchanged. -/
def nav_step (tp : Nat) (current_page : Nat) (nav : String) : Nat :=
  let nav := pyUpper nav
  if nav = "N" ∧ current_page < tp then current_page + 1
  else if nav = "P" ∧ 1 < current_page then current_page - 1
  else current_page

/-- Whether a request carries a parameter under the given key. -/
def hasKey (req : UpstreamRequest) (k : String) : Bool :=
  req.params.any (fun p => p.1 == k)

/-- Concrete searcher fixture: an API key and small genre dictionaries of the
shape `_get_genre_mappings` builds. -/
def S1 : AdvancedMediaSearch :=
  { tmdb_api_key := "k",
    movie_genres := [("comedy", 35), ("sci-fi", 878)],
    tv_genres := [("drama", 18), ("sci-fi", 10765)] }

/-- Network oracle fixture: every request succeeds with an empty result list. -/
def net1 : Net := fun _ => Except.ok []

/-- A searcher whose two genre fetches both failed at construction: both
dictionaries are whatever `_get_genre_mappings` returns on an exception. -/
def failS (k : String) : AdvancedMediaSearch :=
  { tmdb_api_key := k,
    movie_genres := get_genre_mappings GenreFetchResult.failure,
    tv_genres := get_genre_mappings GenreFetchResult.failure }

/-- Concrete row fixture. -/
def row1 : Row :=
  { title := "t", release_year := none, overview := "o", popularity := 0 }

/-- Concrete raw-item fixture: a TV-shaped record. -/
def itemW : RawItem := { name := some "Y", first_air_date := some "2016-07-15" }

/-- The row `itemW` normalizes to. -/
def rowW : Row :=
  { title := "Y", release_year := some 2016, overview := "No overview",
    popularity := 0 }

/-!  Theorems.  -/

theorem doRequest_calls (net : Net) (req : UpstreamRequest) :
    (doRequest net req).calls = [req] := by
  unfold doRequest
  cases net req <;> rfl

theorem doRequest_not_found (net : Net) (req : UpstreamRequest) :
    (doRequest net req).genre_not_found = none := by
  unfold doRequest
  cases net req <;> rfl

theorem normalizeItem_ok_of_parses (item : RawItem)
    (h : item_parses item = true) : ∃ row, normalizeItem item = Except.ok row := by
  unfold normalizeItem parse_year
  cases hd : item_date item with
  | none => exact ⟨_, rfl⟩
  | some d =>
    dsimp only
    by_cases hde : d = ""
    · rw [if_pos hde]; exact ⟨_, rfl⟩
    · rw [if_neg hde]
      cases hpy : pyInt (leadSegment d) with
      | none =>
        exfalso
        unfold item_parses at h
        rw [hd] at h
        simp [hde, hpy] at h
      | some y => exact ⟨_, rfl⟩

/-- C2: as stated the claim is false: normalization is not total.  On an item
whose effective date field is a truthy string whose leading segment is not an
integer, `int()` raises `ValueError`, so `convert_results_to_dataframe`
raises rather than returning a row for the item. -/
theorem convert_raises_on_malformed_date :
    convert_results_to_dataframe [{ release_date := some "unknown" }] =
      Except.error "ValueError" := rfl

/-- C2 (amended): for every sequence of raw items in which each item's
effective date field is absent, empty, or has an `int`-parsable leading
segment, `convert_results_to_dataframe` does not raise and returns exactly
one normalized row per input item, in the same order. -/
theorem convert_total_on_parsable_items (items : List RawItem)
    (h : ∀ item ∈ items, item_parses item = true) :
    ∃ rows, convert_results_to_dataframe items = Except.ok rows ∧
      rows.length = items.length ∧
      List.Forall₂ (fun it r => normalizeItem it = Except.ok r) items rows := by
  induction items with
  | nil => exact ⟨[], rfl, rfl, List.Forall₂.nil⟩
  | cons item rest ih =>
    obtain ⟨rows, hr, hlen, hf⟩ := ih (fun i hi => h i (List.mem_cons_of_mem _ hi))
    obtain ⟨row, hrow⟩ :=
      normalizeItem_ok_of_parses item (h item (List.mem_cons_self _ _))
    refine ⟨row :: rows, ?_, by simp [hlen], List.Forall₂.cons hrow hf⟩
    unfold convert_results_to_dataframe
    rw [hrow, hr]
    rfl

/-- C2 witness: a concrete two-item input on which the amended claim
evaluates. -/
theorem convert_total_on_parsable_items_witness :
    (∀ item ∈ [itemW, ({ title := some "X" } : RawItem)],
      item_parses item = true) ∧
    ∃ rows,
      convert_results_to_dataframe [itemW, { title := some "X" }] =
        Except.ok rows ∧
      rows.length = [itemW, ({ title := some "X" } : RawItem)].length ∧
      List.Forall₂ (fun it r => normalizeItem it = Except.ok r)
        [itemW, { title := some "X" }] rows :=
  ⟨by decide, convert_total_on_parsable_items _ (by decide)⟩

/-- C7: as stated the claim is false: when the effective date field is present
and truthy but its leading segment is unparsable, `releaseYear` is not
"absent" — normalization raises a `ValueError`. -/
theorem normalize_errors_on_unparsable_date :
    normalizeItem { first_air_date := some "TBA" } =
      Except.error "ValueError" := rfl

/-- C7 (amended): whenever normalization of an item succeeds, each output
field is resolved first-match-wins: title is the item's `title` field, else
its `name` field, else `"N/A"`; overview is the `overview` field, else
`"No overview"`; popularity is the `popularity` field, else `0`; the release
year is the integer parsed from the leading segment of `release_date` (else
`first_air_date`), and is absent when that effective date is absent or empty;
when it is present but unparsable, normalization raises instead of yielding
an absent year. -/
theorem normalize_field_fallbacks (item : RawItem) (row : Row)
    (h : normalizeItem item = Except.ok row) :
    (∀ t, item.title = some t → row.title = t) ∧
    (item.title = none → ∀ n, item.name = some n → row.title = n) ∧
    (item.title = none → item.name = none → row.title = "N/A") ∧
    (∀ o, item.overview = some o → row.overview = o) ∧
    (item.overview = none → row.overview = "No overview") ∧
    (∀ p, item.popularity = some p → row.popularity = p) ∧
    (item.popularity = none → row.popularity = 0) ∧
    (item_date item = none → row.release_year = none) ∧
    (item_date item = some "" → row.release_year = none) ∧
    (∀ d y, item_date item = some d → pyInt (leadSegment d) = some y →
      row.release_year = some y) := by
  unfold normalizeItem at h
  cases hp : parse_year (item_date item) with
  | error e => rw [hp] at h; simp [Except.map] at h
  | ok ry =>
    rw [hp] at h
    simp only [Except.map, Except.ok.injEq] at h
    subst h
    refine ⟨?_, ?_, ?_, ?_, ?_, ?_, ?_, ?_, ?_, ?_⟩
    · intro t ht; simp [ht]
    · intro ht n hn; simp [ht, hn]
    · intro ht hn; simp [ht, hn]
    · intro o ho; simp [ho]
    · intro ho; simp [ho]
    · intro p hpp; simp [hpp]
    · intro hpp; simp [hpp]
    · intro hd; rw [hd] at hp
      simp [parse_year] at hp
      subst hp; rfl
    · intro hd; rw [hd] at hp
      simp [parse_year] at hp
      subst hp; rfl
    · intro d y hd hy; rw [hd] at hp
      by_cases hde : d = ""
      · exfalso
        subst hde
        have hz : pyInt (leadSegment "") = none := by decide
        rw [hz] at hy
        exact Option.noConfusion hy
      · simp [parse_year, hde, hy] at hp
        subst hp; rfl

/-- C7 witness: the amended claim at a concrete TV-shaped item. -/
theorem normalize_field_fallbacks_witness :
    normalizeItem itemW = Except.ok rowW ∧ rowW.title = "Y" :=
  ⟨rfl, (normalize_field_fallbacks itemW rowW rfl).2.1 rfl "Y" rfl⟩

theorem charListLe_total :
    ∀ as bs : List Char, charListLe as bs = true ∨ charListLe bs as = true
  | [], _ => Or.inl rfl
  | _ :: _, [] => Or.inr rfl
  | a :: as, b :: bs => by
    rcases Nat.lt_trichotomy a.toNat b.toNat with h | h | h
    · left; simp [charListLe, h]
    · have hab : ¬ a.toNat < b.toNat := by omega
      have hba : ¬ b.toNat < a.toNat := by omega
      rcases charListLe_total as bs with ih | ih
      · left; simp [charListLe, hab, hba, ih]
      · right; simp [charListLe, hab, hba, ih]
    · right; simp [charListLe, h, show ¬ b.toNat < a.toNat → False by omega]

theorem charListLe_trans :
    ∀ as bs cs : List Char, charListLe as bs = true → charListLe bs cs = true →
      charListLe as cs = true
  | [], _, _ => fun _ _ => rfl
  | _ :: _, [], _ => fun h _ => by simp [charListLe] at h
  | _ :: _, _ :: _, [] => fun _ h => by simp [charListLe] at h
  | a :: as, b :: bs, c :: cs => fun h1 h2 => by
    unfold charListLe at h1 h2 ⊢
    by_cases hab : a.toNat < b.toNat
    · by_cases hbc : b.toNat < c.toNat
      · rw [if_pos (show a.toNat < c.toNat by omega)]
      · rw [if_neg hbc] at h2
        by_cases hcb : c.toNat < b.toNat
        · rw [if_pos hcb] at h2; simp at h2
        · rw [if_pos (show a.toNat < c.toNat by omega)]
    · rw [if_neg hab] at h1
      by_cases hba : b.toNat < a.toNat
      · rw [if_pos hba] at h1; simp at h1
      · rw [if_neg hba] at h1
        by_cases hbc : b.toNat < c.toNat
        · rw [if_pos (show a.toNat < c.toNat by omega)]
        · rw [if_neg hbc] at h2
          by_cases hcb : c.toNat < b.toNat
          · rw [if_pos hcb] at h2; simp at h2
          · rw [if_neg hcb] at h2
            rw [if_neg (show ¬ a.toNat < c.toNat by omega),
                if_neg (show ¬ c.toNat < a.toNat by omega)]
            exact charListLe_trans as bs cs h1 h2

/-- C5: when the genre name does not resolve in the genre dictionary selected
for the media category, `fetch_by_genre` returns an empty result immediately,
issues no upstream call, and reports the sorted list of known genre names for
that category. -/
theorem fetch_by_genre_not_found_no_call (S : AdvancedMediaSearch) (net : Net)
    (genre mt : String) (y : Option Int)
    (h : dictGet (if mt = "movie" then S.movie_genres else S.tv_genres)
        (pyLower genre) = none) :
    (fetch_by_genre S net genre mt y).calls = [] ∧
    (fetch_by_genre S net genre mt y).results = [] ∧
    ∃ names,
      (fetch_by_genre S net genre mt y).genre_not_found = some (genre, names) ∧
      names.Sorted (fun a b => strLeB a b = true) ∧
      names.Perm ((if mt = "movie" then S.movie_genres else S.tv_genres).map
        Prod.fst) := by
  haveI htot : IsTotal String (fun a b => strLeB a b = true) :=
    ⟨fun a b => charListLe_total a.data b.data⟩
  haveI htr : IsTrans String (fun a b => strLeB a b = true) :=
    ⟨fun a b c => charListLe_trans a.data b.data c.data⟩
  unfold fetch_by_genre
  dsimp only
  rw [h]
  exact ⟨rfl, rfl, sortedKeys _, rfl, List.sorted_insertionSort _ _,
    List.perm_insertionSort _ _⟩

/-- C5 witness: the unknown genre "Western" against the movie dictionary of
the concrete searcher. -/
theorem fetch_by_genre_not_found_witness :
    dictGet (if "movie" = "movie" then S1.movie_genres else S1.tv_genres)
      (pyLower "Western") = none ∧
    (fetch_by_genre S1 net1 "Western" "movie" none).calls = [] ∧
    (fetch_by_genre S1 net1 "Western" "movie" none).results = [] ∧
    ∃ names,
      (fetch_by_genre S1 net1 "Western" "movie" none).genre_not_found =
        some ("Western", names) ∧
      names.Sorted (fun a b => strLeB a b = true) ∧
      names.Perm ((if "movie" = "movie" then S1.movie_genres
        else S1.tv_genres).map Prod.fst) :=
  ⟨by decide, fetch_by_genre_not_found_no_call S1 net1 "Western" "movie" none
    (by decide)⟩

theorem fetch_by_genre_calls_url (S : AdvancedMediaSearch) (net : Net)
    (genre mt : String) (y : Option Int) :
    ∀ req ∈ (fetch_by_genre S net genre mt y).calls,
      req.url = tmdb_base_url ++ "/discover/" ++ mt := by
  unfold fetch_by_genre
  dsimp only
  cases dictGet (if mt = "movie" then S.movie_genres else S.tv_genres)
      (pyLower genre) with
  | none => intro req hreq; simp at hreq
  | some gid =>
    rw [doRequest_calls]
    intro req hreq
    simp only [List.mem_singleton] at hreq
    subst hreq; rfl

/-- C3: `advanced_search` takes exactly one branch, in precedence order: a
truthy genre filter routes to genre resolution and a discover request (with
the year attached inside `fetch_by_genre` when also present); else a truthy
release-year filter routes to a discover request carrying only the year
field; else a plain search request carrying the free-text query. -/
theorem advanced_search_branch_precedence (S : AdvancedMediaSearch) (net : Net)
    (q mt : String) (fs : Filters) :
    (truthyStr fs.genre = true →
      (advanced_search S net q mt (some fs)).trace =
        fetch_by_genre S net (fs.genre.getD "") mt fs.release_year ∧
      ∀ req ∈ (advanced_search S net q mt (some fs)).trace.calls,
        req.url = tmdb_base_url ++ "/discover/" ++ mt) ∧
    (truthyStr fs.genre = false → truthyInt fs.release_year = true →
      (advanced_search S net q mt (some fs)).trace.calls =
        [{ url := tmdb_base_url ++ "/discover/" ++ mt,
           params := [("api_key", PValue.s S.tmdb_api_key),
                      ("language", PValue.s "en-US"),
                      ("page", PValue.i 1),
                      (year_key mt, PValue.i (fs.release_year.getD 0))] }]) ∧
    (truthyStr fs.genre = false → truthyInt fs.release_year = false →
      (advanced_search S net q mt (some fs)).trace.calls =
        [{ url := tmdb_base_url ++ "/search/" ++ mt,
           params := [("api_key", PValue.s S.tmdb_api_key),
                      ("query", PValue.s q),
                      ("language", PValue.s "en-US"),
                      ("page", PValue.i 1)] }]) := by
  refine ⟨fun hg => ⟨?_, ?_⟩, fun hg hy => ?_, fun hg hy => ?_⟩
  · unfold advanced_search
    simp only [Option.getD_some, hg, if_true]
  · unfold advanced_search
    simp only [Option.getD_some, hg, if_true]
    exact fetch_by_genre_calls_url S net (fs.genre.getD "") mt fs.release_year
  · unfold advanced_search
    simp only [Option.getD_some, hg, hy, Bool.false_eq_true, if_false, if_true]
    unfold fetch_by_year
    rw [doRequest_calls]
    rfl
  · unfold advanced_search
    simp only [Option.getD_some, hg, hy, Bool.false_eq_true, if_false]
    unfold basic_search
    rw [doRequest_calls]

/-- C3 witness: with no genre and the truthy year 2020, the planner issues
exactly the year-only discover request. -/
theorem advanced_search_branch_precedence_witness :
    truthyStr (none : Option String) = false ∧
    truthyInt (some 2020 : Option Int) = true ∧
    (advanced_search S1 net1 "hello" "movie"
        (some { release_year := some 2020 })).trace.calls =
      [{ url := tmdb_base_url ++ "/discover/" ++ "movie",
         params := [("api_key", PValue.s S1.tmdb_api_key),
                    ("language", PValue.s "en-US"),
                    ("page", PValue.i 1),
                    (year_key "movie",
                      PValue.i ((some 2020 : Option Int).getD 0))] }] :=
  ⟨rfl, rfl,
    (advanced_search_branch_precedence S1 net1 "hello" "movie"
      { release_year := some 2020 }).2.1 rfl rfl⟩

/-- C4: every discover request carrying a release-year filter keys it with
`primary_release_year` exactly for the movie category and with
`first_air_date_year` exactly for the tv category, in both `fetch_by_year`
and `fetch_by_genre`; the two keys are never swapped. -/
theorem year_key_never_swapped (S : AdvancedMediaSearch) (net : Net)
    (mt genre : String) (y : Int) (hy : y ≠ 0) :
    (mt = "movie" →
      (∀ req ∈ (fetch_by_year S net y mt).calls,
        hasKey req "primary_release_year" = true ∧
        hasKey req "first_air_date_year" = false) ∧
      (∀ req ∈ (fetch_by_genre S net genre mt (some y)).calls,
        hasKey req "primary_release_year" = true ∧
        hasKey req "first_air_date_year" = false)) ∧
    (mt = "tv" →
      (∀ req ∈ (fetch_by_year S net y mt).calls,
        hasKey req "first_air_date_year" = true ∧
        hasKey req "primary_release_year" = false) ∧
      (∀ req ∈ (fetch_by_genre S net genre mt (some y)).calls,
        hasKey req "first_air_date_year" = true ∧
        hasKey req "primary_release_year" = false)) := by
  constructor
  all_goals intro hmt; subst hmt
  all_goals
    constructor
    · unfold fetch_by_year
      rw [doRequest_calls]
      intro req hreq
      simp only [List.mem_singleton] at hreq
      subst hreq
      constructor <;> simp [hasKey, year_key]
    · unfold fetch_by_genre
      dsimp only
      cases dictGet _ (pyLower genre) with
      | none => intro req hreq; simp at hreq
      | some gid =>
        rw [doRequest_calls]
        intro req hreq
        simp only [List.mem_singleton] at hreq
        subst hreq
        constructor <;> simp [hasKey, year_key, hy]

/-- C8: genre resolution is case-insensitive: two spellings of a resolvable
genre name that agree after lowercasing yield identical `fetch_by_genre`
behaviour, and the discover request carries the genre id the dictionary gives
for the lowercased name. -/
theorem genre_resolution_case_insensitive (S : AdvancedMediaSearch) (net : Net)
    (mt : String) (y : Option Int) (g1 g2 : String) (gid : Int)
    (h12 : pyLower g1 = pyLower g2)
    (hres : dictGet (if mt = "movie" then S.movie_genres else S.tv_genres)
        (pyLower g1) = some gid) :
    fetch_by_genre S net g1 mt y = fetch_by_genre S net g2 mt y ∧
    ∀ req ∈ (fetch_by_genre S net g1 mt y).calls,
      ("with_genres", PValue.i gid) ∈ req.params := by
  constructor
  · unfold fetch_by_genre
    dsimp only
    rw [← h12, hres]
  · unfold fetch_by_genre
    dsimp only
    rw [hres, doRequest_calls]
    intro req hreq
    simp only [List.mem_singleton] at hreq
    subst hreq
    cases y with
    | none => simp
    | some yy => by_cases hyy : yy ≠ 0 <;> simp [hyy]

/-- C8 witness: "Sci-Fi" and "sci-fi" against the movie dictionary of the
concrete searcher resolve to the same discover request. -/
theorem genre_resolution_case_insensitive_witness :
    pyLower "Sci-Fi" = pyLower "sci-fi" ∧
    dictGet (if "movie" = "movie" then S1.movie_genres else S1.tv_genres)
      (pyLower "Sci-Fi") = some 878 ∧
    fetch_by_genre S1 net1 "Sci-Fi" "movie" none =
      fetch_by_genre S1 net1 "sci-fi" "movie" none :=
  ⟨by decide, by decide,
    (genre_resolution_case_insensitive S1 net1 "movie" none "Sci-Fi" "sci-fi"
      878 (by decide) (by decide)).1⟩

/-- C9: a failed genre-list fetch (exception) or a malformed payload (no
genres entry) degrades to an empty dictionary instead of raising, and every
subsequent genre resolution against such a category reports not-found, with
no upstream call, instead of raising. -/
theorem genre_mapping_failure_degrades (k : String) (net : Net)
    (g mt : String) (y : Option Int) :
    get_genre_mappings GenreFetchResult.failure = [] ∧
    get_genre_mappings (GenreFetchResult.payload none) = [] ∧
    (∀ name, dictGet (get_genre_mappings GenreFetchResult.failure) name
      = none) ∧
    (fetch_by_genre (failS k) net g mt y).calls = [] ∧
    (fetch_by_genre (failS k) net g mt y).genre_not_found = some (g, []) := by
  refine ⟨rfl, rfl, fun name => rfl, ?_, ?_⟩ <;>
  · unfold fetch_by_genre failS
    dsimp only
    rw [ite_self]
    rfl

/-- C10: whenever the filter dictionary carries a truthy genre or a truthy
release year, the free-text query is ignored: any two query strings yield
identical upstream requests and identical results. -/
theorem query_ignored_when_filters_present (S : AdvancedMediaSearch)
    (net : Net) (q1 q2 mt : String) (fs : Filters)
    (h : truthyStr fs.genre = true ∨ truthyInt fs.release_year = true) :
    advanced_search S net q1 mt (some fs) =
      advanced_search S net q2 mt (some fs) := by
  unfold advanced_search
  dsimp only [Option.getD_some]
  rcases h with h | h
  · simp [h]
  · by_cases hg : truthyStr fs.genre = true
    · simp [hg]
    · simp [hg, h]

/-- C10 witness: a truthy genre filter with two different query strings. -/
theorem query_ignored_when_filters_present_witness :
    (truthyStr (some "comedy") = true ∨
      truthyInt (none : Option Int) = true) ∧
    advanced_search S1 net1 "a" "movie" (some { genre := some "comedy" }) =
      advanced_search S1 net1 "b" "movie" (some { genre := some "comedy" }) :=
  ⟨Or.inl rfl,
    query_ignored_when_filters_present S1 net1 "a" "b" "movie"
      { genre := some "comedy" } (Or.inl rfl)⟩

/-- C1: as stated the claim is false: no InvalidCategory rejection exists.
With the unrecognized category "anime" and a year filter, `advanced_search`
does not fail before planning — it runs the planning logic and issues a
discover request, treating the category like tv. -/
theorem invalid_category_not_rejected :
    (advanced_search S1 net1 "q" "anime"
        (some { release_year := some 2020 })).trace.calls =
      [{ url := "https://api.themoviedb.org/3/discover/anime",
         params := [("api_key", PValue.s "k"),
                    ("language", PValue.s "en-US"),
                    ("page", PValue.i 1),
                    ("first_air_date_year", PValue.i 2020)] }] := rfl

/-- C1 (amended): `advanced_search` performs no media-category validation:
for every category other than "movie" — recognized or not — a year-filtered
plan proceeds and issues a discover request whose URL embeds that category
and whose year key is the tv key `first_air_date_year`; the category is
neither rejected nor corrected. -/
theorem no_category_validation (S : AdvancedMediaSearch) (net : Net)
    (q mt : String) (fs : Filters) (hmt : mt ≠ "movie")
    (hg : truthyStr fs.genre = false) (hy : truthyInt fs.release_year = true) :
    (advanced_search S net q mt (some fs)).trace.calls =
      [{ url := tmdb_base_url ++ "/discover/" ++ mt,
         params := [("api_key", PValue.s S.tmdb_api_key),
                    ("language", PValue.s "en-US"),
                    ("page", PValue.i 1),
                    ("first_air_date_year",
                      PValue.i (fs.release_year.getD 0))] }] := by
  unfold advanced_search
  simp only [Option.getD_some, hg, Bool.false_eq_true, if_false, hy, if_true]
  unfold fetch_by_year
  rw [doRequest_calls]
  unfold year_key
  rw [if_neg hmt]
  rfl

/-- C1 witness: the amended claim at the unrecognized category "webtoon". -/
theorem no_category_validation_witness :
    ("webtoon" : String) ≠ "movie" ∧
    truthyStr (none : Option String) = false ∧
    truthyInt (some 1999 : Option Int) = true ∧
    (advanced_search S1 net1 "x" "webtoon"
        (some { release_year := some 1999 })).trace.calls =
      [{ url := tmdb_base_url ++ "/discover/" ++ "webtoon",
         params := [("api_key", PValue.s S1.tmdb_api_key),
                    ("language", PValue.s "en-US"),
                    ("page", PValue.i 1),
                    ("first_air_date_year",
                      PValue.i ((some 1999 : Option Int).getD 0))] }] :=
  ⟨by decide, rfl, rfl,
    no_category_validation S1 net1 "x" "webtoon"
      { release_year := some 1999 } (by decide) rfl rfl⟩

/-- C6: pagination with page size 5 computes totalPages as the ceiling of
rowCount / pageSize; for 12 rows there are 3 pages, page 1 holds the first 5
rows and page 3 the remaining 2; `N` on the last page and `P` on page 1
leave the page unchanged, and navigation always stays within bounds. -/
theorem pagination_saturates (rows : List Row) (h : rows.length = 12) :
    total_pages rows.length = 3 ∧
    page_results rows 1 = rows.take 5 ∧
    (page_results rows 1).length = 5 ∧
    page_results rows 3 = rows.drop 10 ∧
    (page_results rows 3).length = 2 ∧
    nav_step 3 3 "N" = 3 ∧
    nav_step 3 1 "P" = 1 ∧
    (∀ n, n ≤ page_size * total_pages n ∧
      page_size * total_pages n < n + page_size) ∧
    (∀ tp cp nav, 1 ≤ cp → cp ≤ tp →
      1 ≤ nav_step tp cp nav ∧ nav_step tp cp nav ≤ tp) := by
  refine ⟨?_, ?_, ?_, ?_, ?_, by decide, by decide, ?_, ?_⟩
  · rw [h]; rfl
  · simp [page_results, page_size]
  · simp [page_results, page_size, h]
  · unfold page_results page_size
    norm_num
    omega
  · simp [page_results, page_size, h]
  · intro n; unfold total_pages page_size; omega
  · intro tp cp nav h1 h2
    unfold nav_step
    dsimp only
    by_cases hN : pyUpper nav = "N" ∧ cp < tp
    · rw [if_pos hN]
      have h3 := hN.2
      omega
    · rw [if_neg hN]
      by_cases hP : pyUpper nav = "P" ∧ 1 < cp
      · rw [if_pos hP]
        have h3 := hP.2
        omega
      · rw [if_neg hP]
        exact ⟨h1, h2⟩

/-- C6 witness: twelve concrete rows. -/
theorem pagination_saturates_witness :
    (List.replicate 12 row1).length = 12 ∧
    total_pages (List.replicate 12 row1).length = 3 :=
  ⟨by simp, (pagination_saturates _ (by simp)).1⟩

/-- C4 witness: the movie category at year 2020 with genre "comedy". -/
theorem year_key_never_swapped_witness :
    (2020 : Int) ≠ 0 ∧
    ∀ req ∈ (fetch_by_year S1 net1 2020 "movie").calls,
      hasKey req "primary_release_year" = true ∧
      hasKey req "first_air_date_year" = false :=
  ⟨by decide,
    ((year_key_never_swapped S1 net1 "movie" "comedy" 2020 (by decide)).1
      rfl).1⟩
